import Mathlib

/-!
Shallow embedding of the socket-mesh/stream-demux routing, filtering and
consumer-lifecycle layer.

The embedding follows the single-shared-tagged-log design of
src/src/stream-demux.ts (class StreamDemux) together with the
StreamConsumer pull algorithm (StreamConsumer.next / StreamConsumer.write)
and the demux packet type (DemuxPacket, DemuxStreamPacket,
DemuxConsumerPacket).

The shared packet log collaborator (the WritableConsumableStream and the
generic Consumer base class) is not part of this repository source tree; it
is modelled from the spec as an append-only list of nodes plus per-consumer
cursor records: applying backpressure increments an integer counter,
releasing decrements it, killing a cursor injects a terminal kill result,
resets backpressure to zero and detaches the cursor, and consumer ids come
from a monotonically incremented counter.
-/

/-- An IteratorResult as it flows through the demux packets:
a value (possibly absent, as for a close with no argument) plus a done flag. -/
structure IterResult (T : Type) where
  value : Option T
  done : Bool
deriving DecidableEq, Repr

/-- DemuxPacket from src/src/demux-packet.ts: either a stream packet tagged
with a stream name, or a consumer packet tagged with a consumer id. -/
inductive DemuxPacket (T : Type) where
  | stream (name : String) (data : IterResult T)
  | consumer (cid : Nat) (data : IterResult T)
deriving DecidableEq, Repr

/-- The data stored in one node of the shared log: the main stream carries
IteratorResult values whose element type is DemuxPacket.  A node is either
an ordinary packet (top-level done = false) or a top-level terminal node
(done = true, written by closeAll through the close of the main stream). -/
inductive NodeData (T : Type) where
  | packet (p : DemuxPacket T)
  | closed (value : Option T)
deriving DecidableEq, Repr

/-- One node of the shared append-only log.  Modelled from the spec:
the shared log collaborator tags a node with the target consumer id when
the write is addressed to a single consumer (writeToConsumer). -/
structure Node (T : Type) where
  consumerId : Option Nat
  data : NodeData T
deriving DecidableEq, Repr

/-- The per-consumer cursor state of a StreamConsumer.
pos is the cursor position into the shared log (number of nodes already
passed), backpressure is the integer counter of the generic consumer base
class, killPacket models the injected kill result, and live models
membership in the shared-log consumer registry (detached cursors have
live = false). -/
structure Consumer (T : Type) where
  id : Nat
  streamName : String
  pos : Nat
  backpressure : Int
  killPacket : Option (IterResult T)
  live : Bool
deriving DecidableEq, Repr

/-- Whole-router state: the shared log, the id counter of the shared
stream, and the consumer records. -/
structure DemuxState (T : Type) where
  log : List (Node T)
  nextConsumerId : Nat
  consumers : List (Consumer T)
deriving DecidableEq, Repr

/-- A fresh StreamDemux: empty log, id counter starting at 1, no consumers. -/
def initialState (T : Type) : DemuxState T := ⟨[], 1, []⟩

variable {T : Type}

/-- The backpressure-relevance test of StreamConsumer.write
(src/unnamed/part_000 lines 28-37): backpressure is applied exactly when
the packet is a top-level terminal, or a stream packet whose stream name
equals the name of this consumer. -/
def bpRelevant (sn : String) : NodeData T → Bool
  | .closed _ => true
  | .packet (.stream name _) => name == sn
  | .packet (.consumer _ _) => false

/-- Whether a log node carries a consumer-id tag equal to cid
(the test currentNode.next.consumerId === this.id in StreamConsumer.next). -/
def nodeAddressedTo (cid : Nat) (n : Node T) : Bool :=
  match n.consumerId with
  | some d => d == cid
  | none => false

/-- The skip test of the inner while loop of StreamConsumer.next
(src/unnamed/part_000 lines 59-68): a node is passed over without being
consumed exactly when it holds a packet value, is not a top-level terminal,
its value is not a stream packet for this consumer, and the node is not
addressed to this consumer id. -/
def skipped (sn : String) (cid : Nat) (n : Node T) : Bool :=
  match n.data with
  | .closed _ => false
  | .packet (.stream name _) => name != sn && !(nodeAddressedTo cid n)
  | .packet (.consumer _ _) => !(nodeAddressedTo cid n)

/-- Consuming one non-skipped node, following the tail of
StreamConsumer.next (src/unnamed/part_000 lines 74-89): returns the
IteratorResult handed to the caller together with the flag telling whether
the consumer destroys itself (top-level terminal, or inner done = true). -/
def consumeNode : Node T → IterResult T × Bool
  | ⟨_, .closed v⟩ => (⟨v, true⟩, true)
  | ⟨_, .packet (.stream _ d)⟩ => (d, d.done)
  | ⟨_, .packet (.consumer _ d)⟩ => (d, d.done)

/-- The sequence of results produced by successive next() calls of a
consumer with stream name sn and id cid over the remaining part of the
log, until the first terminal result is returned or the log is exhausted
(at which point a further next() suspends). -/
def outputsFrom (sn : String) (cid : Nat) : List (Node T) → List (IterResult T)
  | [] => []
  | n :: rest =>
    if skipped sn cid n then outputsFrom sn cid rest
    else if (consumeNode n).2 then [(consumeNode n).1]
    else (consumeNode n).1 :: outputsFrom sn cid rest

/-- The sequence of results produced by successive next() calls of a
consumer record over a log: a pending kill packet is returned first
(StreamConsumer.next lines 51-57), otherwise the cursor traverses the log
from its position. -/
def consumerOutputs (c : Consumer T) (log : List (Node T)) : List (IterResult T) :=
  match c.killPacket with
  | some k => [k]
  | none => outputsFrom c.streamName c.id (log.drop c.pos)

/-- One traversal step of StreamConsumer.next over the remaining log:
skip foreign nodes, then consume the first relevant or terminal node.
Returns the result, the destroy flag, and how many nodes the cursor
advanced past (skipped nodes plus the consumed one); none when every
remaining node is skipped, so the call would suspend. -/
def pullFrom (sn : String) (cid : Nat) : List (Node T) → Option (IterResult T × Bool × Nat)
  | [] => none
  | n :: rest =>
    if skipped sn cid n then
      (pullFrom sn cid rest).map (fun r => (r.1, r.2.1, r.2.2 + 1))
    else
      some ((consumeNode n).1, (consumeNode n).2, 1)

/-- One next() call of a consumer over the current log.  none means the
call suspends waiting for more nodes.  Otherwise the result is returned
together with the consumer state afterwards (none when the consumer
destroyed itself: terminal result or delivered kill packet).  A pending
kill packet is delivered as soon as a successor node exists
(StreamConsumer.next reaches the kill check without suspending exactly
when currentNode has a successor); it releases no backpressure, while an
ordinary consumption decrements backpressure by one
(releaseBackpressure, line 76). -/
def pullOne (c : Consumer T) (log : List (Node T)) :
    Option (IterResult T × Option (Consumer T)) :=
  match c.killPacket with
  | some k => if (log.drop c.pos).isEmpty then none else some (k, none)
  | none =>
    (pullFrom c.streamName c.id (log.drop c.pos)).map fun r =>
      (r.1,
        if r.2.1 then none
        else some { c with pos := c.pos + r.2.2, backpressure := c.backpressure - 1 })

/-- The effect of one appended node on one registered consumer:
StreamConsumer.write applies backpressure exactly for bpRelevant packets;
detached consumers are not in the registry and receive nothing. -/
def notifyWrite (n : Node T) (c : Consumer T) : Consumer T :=
  if c.live && bpRelevant c.streamName n.data then
    { c with backpressure := c.backpressure + 1 }
  else c

/-- Appending one node to the shared log and notifying every registered
consumer (the write path of the shared log collaborator, modelled from the
spec together with StreamConsumer.write). -/
def appendNode (s : DemuxState T) (n : Node T) : DemuxState T :=
  { s with log := s.log ++ [n], consumers := s.consumers.map (notifyWrite n) }

/-- StreamDemux.write (src/src/stream-demux.ts lines 14-23): appends a
stream packet with done = false. -/
def writeOp (s : DemuxState T) (name : String) (v : T) : DemuxState T :=
  appendNode s ⟨none, .packet (.stream name ⟨some v, false⟩)⟩

/-- StreamDemux.close with a stream name (lines 25-40): appends a stream
packet with done = true. -/
def closeOp (s : DemuxState T) (name : String) (v : Option T) : DemuxState T :=
  appendNode s ⟨none, .packet (.stream name ⟨v, true⟩)⟩

/-- StreamDemux.writeToConsumer (lines 46-57): appends a consumer packet
tagged with the target consumer id, without checking that such a consumer
exists. -/
def writeToConsumerOp (s : DemuxState T) (cid : Nat) (v : T) : DemuxState T :=
  appendNode s ⟨some cid, .packet (.consumer cid ⟨some v, false⟩)⟩

/-- StreamDemux.closeAll (lines 42-44): closes the whole main stream,
appending a top-level terminal node seen by every consumer. -/
def closeAllOp (s : DemuxState T) (v : Option T) : DemuxState T :=
  appendNode s ⟨none, .closed v⟩

/-- Modelled from the spec: killing one cursor of the shared log injects
the value as terminal kill result, discards nothing from the log, resets
the backpressure of that cursor to zero and detaches it. -/
def killedConsumer (v : Option T) (c : Consumer T) : Consumer T :=
  { c with killPacket := some ⟨v, true⟩, backpressure := 0, live := false }

/-- The per-record effect of killConsumer on the shared log: only the
registered cursor with the matching id is killed. -/
def killConsumerUpd (cid : Nat) (v : Option T) (c : Consumer T) : Consumer T :=
  if c.live && c.id == cid then killedConsumer v c else c

/-- StreamDemux.kill with a numeric consumer id (lines 78-84). -/
def killConsumerOp (s : DemuxState T) (cid : Nat) (v : Option T) : DemuxState T :=
  { s with consumers := s.consumers.map (killConsumerUpd cid v) }

/-- The per-record effect of StreamDemux.kill with a stream name
(lines 78-92): the code enumerates getConsumerStats(streamName) and kills
each listed id.  Because getConsumerStats dispatches on the falsy test
(!consumerId), the empty string selects the unfiltered stats list, so
kill("") kills every registered consumer. -/
def killStreamUpd (name : String) (v : Option T) (c : Consumer T) : Consumer T :=
  if c.live && (name == "" || c.streamName == name) then killedConsumer v c else c

/-- StreamDemux.kill with a stream name (lines 78-92). -/
def killStreamOp (s : DemuxState T) (name : String) (v : Option T) : DemuxState T :=
  { s with consumers := s.consumers.map (killStreamUpd name v) }

/-- The per-record effect of StreamDemux.killAll (lines 94-96): every
registered consumer is killed. -/
def killAllUpd (v : Option T) (c : Consumer T) : Consumer T :=
  if c.live then killedConsumer v c else c

/-- StreamDemux.killAll (lines 94-96). -/
def killAllOp (s : DemuxState T) (v : Option T) : DemuxState T :=
  { s with consumers := s.consumers.map (killAllUpd v) }

/-- StreamDemux.createConsumer (lines 133-142): allocates the next
consumer id, positions the new cursor at the current tail of the log, and
registers it.  Returns the new consumer together with the new state. -/
def createConsumerOp (s : DemuxState T) (name : String) : Consumer T × DemuxState T :=
  let c : Consumer T := ⟨s.nextConsumerId, name, s.log.length, 0, none, true⟩
  (c, { s with nextConsumerId := s.nextConsumerId + 1, consumers := s.consumers ++ [c] })

/-- A consumer stats snapshot: id, recorded stream name, backpressure
(StreamConsumer.getStats, src/unnamed/part_000 lines 19-26). -/
structure Stats where
  id : Nat
  stream : String
  backpressure : Int
deriving DecidableEq, Repr

/-- StreamConsumer.getStats. -/
def consumerStats (c : Consumer T) : Stats := ⟨c.id, c.streamName, c.backpressure⟩

/-- The unfiltered stats list of the shared log: one snapshot per
registered (live) consumer, in registration order. -/
def allConsumerStats (s : DemuxState T) : List Stats :=
  (s.consumers.filter (fun c => c.live)).map consumerStats

/-- StreamDemux.getConsumerStats called with a string argument
(src/src/stream-demux.ts lines 59-76).  The dispatch uses the JavaScript
falsy test (!consumerId), so the empty string takes the unfiltered branch
and returns every snapshot; any other string filters on the recorded
stream name. -/
def getConsumerStatsByName (s : DemuxState T) (name : String) : List Stats :=
  if name == "" then allConsumerStats s
  else (allConsumerStats s).filter (fun st => st.stream == name)

/-- StreamDemux.getBackpressure called with a numeric consumer id
(lines 100-116), forwarded to the shared log: the backpressure of the
registered consumer with that id, 0 when absent. -/
def getBackpressureOfConsumer (s : DemuxState T) (cid : Nat) : Int :=
  match (s.consumers.filter (fun c => c.live)).find? (fun c => c.id == cid) with
  | some c => c.backpressure
  | none => 0

/-- The router operations a producer can invoke (the public surface used
by the claims). -/
inductive DemuxOp (T : Type) where
  | write (name : String) (v : T)
  | closeStream (name : String) (v : Option T)
  | writeToConsumer (cid : Nat) (v : T)
  | closeAll (v : Option T)
  | killStream (name : String) (v : Option T)
  | killConsumer (cid : Nat) (v : Option T)
  | killAll (v : Option T)
  | create (name : String)
deriving DecidableEq, Repr

/-- Applying one router operation to the state. -/
def applyOp (s : DemuxState T) : DemuxOp T → DemuxState T
  | .write name v => writeOp s name v
  | .closeStream name v => closeOp s name v
  | .writeToConsumer cid v => writeToConsumerOp s cid v
  | .closeAll v => closeAllOp s v
  | .killStream name v => killStreamOp s name v
  | .killConsumer cid v => killConsumerOp s cid v
  | .killAll v => killAllOp s v
  | .create name => (createConsumerOp s name).2

/-- Running a sequence of router operations. -/
def runOps (s : DemuxState T) : List (DemuxOp T) → DemuxState T
  | [] => s
  | op :: rest => runOps (applyOp s op) rest

/-- The consumer ids assigned by one operation (createConsumer assigns the
current value of the id counter, every other operation assigns none). -/
def opAssigned (s : DemuxState T) : DemuxOp T → List Nat
  | .create _ => [s.nextConsumerId]
  | _ => []

/-- The consumer ids assigned while running a sequence of operations, in
creation order. -/
def assignedIds (s : DemuxState T) : List (DemuxOp T) → List Nat
  | [] => []
  | op :: rest => opAssigned s op ++ assignedIds (applyOp s op) rest

/-- The node appended to the shared log by an operation, when the
operation is one of the four append-only operations (write, close of a
stream, writeToConsumer, closeAll). -/
def opNode : DemuxOp T → Option (Node T)
  | .write name v => some ⟨none, .packet (.stream name ⟨some v, false⟩)⟩
  | .closeStream name v => some ⟨none, .packet (.stream name ⟨v, true⟩)⟩
  | .writeToConsumer cid v => some ⟨some cid, .packet (.consumer cid ⟨some v, false⟩)⟩
  | .closeAll v => some ⟨none, .closed v⟩
  | _ => none

/-- The node written by StreamDemux.write. -/
def streamNode (sn : String) (v : T) : Node T :=
  ⟨none, .packet (.stream sn ⟨some v, false⟩)⟩

/-- The node written by StreamDemux.close with a stream name. -/
def closeNode (sn : String) (v : Option T) : Node T :=
  ⟨none, .packet (.stream sn ⟨v, true⟩)⟩

/-- Whether an operation appends a packet relevant to the consumer with
stream name sn and id cid: a write or close of the same stream, a
writeToConsumer addressed to cid, or a closeAll (whose terminal node every
consumer consumes). -/
def relevantOp (sn : String) (cid : Nat) : DemuxOp T → Bool
  | .write name _ => name == sn
  | .closeStream name _ => name == sn
  | .writeToConsumer d _ => d == cid
  | .closeAll _ => true
  | _ => false

/-- Whether an operation is a plain stream write or stream close. -/
def isStreamOp : DemuxOp T → Bool
  | .write _ _ => true
  | .closeStream _ _ => true
  | _ => false

/-- Whether a stream write or stream close addresses the stream sn. -/
def streamOpFor (sn : String) : DemuxOp T → Bool
  | .write name _ => name == sn
  | .closeStream name _ => name == sn
  | _ => false

/-- Erasing the backpressure counter of a consumer record, used to state
that append operations change nothing about a registered consumer except
its backpressure. -/
def clearBp (c : Consumer T) : Consumer T := { c with backpressure := 0 }

/-- Consuming a list of already-filtered (relevant or terminal) nodes in
sequence, stopping at the first node whose consumption destroys the
consumer. -/
def consumeList : List (Node T) → List (IterResult T)
  | [] => []
  | n :: rest =>
    if (consumeNode n).2 then [(consumeNode n).1]
    else (consumeNode n).1 :: consumeList rest

/-- Creating three consumers on the same stream name in a row, as three
concurrent iteration loops over the same listen handle do
(DemuxedConsumableStream.createConsumer mints a fresh StreamConsumer per
loop). -/
def create3 (s0 : DemuxState T) (S : String) :
    (Consumer T × Consumer T × Consumer T) × DemuxState T :=
  let r1 := createConsumerOp s0 S
  let r2 := createConsumerOp r1.2 S
  let r3 := createConsumerOp r2.2 S
  ((r1.1, r2.1, r3.1), r3.2)

/-- Modelled from the spec (claim C2 wording): a packet is relevant to a
consumer when it is a stream packet whose name matches the consumer stream
name, a consumer packet addressed to the consumer id, or a terminal
packet.  This definition follows the words of the claim and is compared
with the behaviour of the source-derived definitions. -/
def specRelevant (sn : String) (cid : Nat) (n : Node T) : Bool :=
  match n.data with
  | .closed _ => true
  | .packet (.stream name _) => name == sn
  | .packet (.consumer d _) => d == cid

/-- Modelled from the spec (claim C2 wording): the number of relevant
packets written but not yet pulled by a consumer. -/
def specPendingCount (c : Consumer T) (log : List (Node T)) : Nat :=
  ((log.drop c.pos).filter (specRelevant c.streamName c.id)).length

/-- A fresh demux with one consumer created on stream "hello". -/
def demoOneConsumerState : DemuxState Nat := (createConsumerOp (initialState Nat) "hello").2

/-- The consumer created on stream "hello" in demoOneConsumerState. -/
def demoConsumer : Consumer Nat := (createConsumerOp (initialState Nat) "hello").1

/-- demoOneConsumerState after writeToConsumer addressed to the consumer. -/
def demoWrittenState : DemuxState Nat := writeToConsumerOp demoOneConsumerState 1 42

/-- A concrete interleaved operation sequence for stream "hello" with
foreign traffic: writes to another stream, a consumer packet for a foreign
id, and a close of another stream, around the writes 1, 2, 3 and the final
close of "hello". -/
def demoOps : List (DemuxOp Nat) :=
  [.write "abc" 9, .write "hello" 1, .writeToConsumer 99 7, .write "hello" 2,
   .closeStream "abc" none, .write "hello" 3, .closeStream "hello" none]

/-- A concrete stream-only operation sequence: writes 1, 2, 3 to "hello"
interleaved with writes and a close of stream "foo", then close of
"hello" with value 5. -/
def demoStreamOps : List (DemuxOp Nat) :=
  [.write "foo" 9, .write "hello" 1, .write "hello" 2, .closeStream "foo" (some 4),
   .write "hello" 3, .closeStream "hello" (some 5)]

/-- A demux holding one consumer on "hello" and one on "other". -/
def demoTwoStreamState : DemuxState Nat :=
  (createConsumerOp (createConsumerOp (initialState Nat) "hello").2 "other").2

/-- A live consumer on "hello" with three unread relevant packets worth of
backpressure. -/
def demoKillConsumer : Consumer Nat := ⟨1, "hello", 0, 3, none, true⟩

/-! ## Helper lemmas -/

theorem map_congr_mem {α β : Type} (f g : α → β) :
    ∀ l : List α, (∀ a ∈ l, f a = g a) → l.map f = l.map g
  | [], _ => rfl
  | a :: l, h => by
    simp only [List.map_cons]
    rw [h a (List.mem_cons_self a l),
      map_congr_mem f g l (fun b hb => h b (List.mem_cons_of_mem a hb))]

theorem filter_congr_mem {α : Type} (p q : α → Bool) :
    ∀ l : List α, (∀ a ∈ l, p a = q a) → l.filter p = l.filter q
  | [], _ => rfl
  | a :: l, h => by
    simp only [List.filter_cons]
    rw [h a (List.mem_cons_self a l),
      filter_congr_mem p q l (fun b hb => h b (List.mem_cons_of_mem a hb))]

theorem drop_append_of_le {α : Type} :
    ∀ (l₁ : List α) (n : Nat), n ≤ l₁.length → ∀ l₂ : List α, (l₁ ++ l₂).drop n = l₁.drop n ++ l₂
  | _, 0, _, _ => rfl
  | a :: l₁, n + 1, h, l₂ => by
    simp only [List.cons_append, List.drop_succ_cons]
    exact drop_append_of_le l₁ n (Nat.le_of_succ_le_succ h) l₂

theorem outputsFrom_middle_skipped (sn : String) (cid : Nat) (nd : Node T)
    (hs : skipped sn cid nd = true) :
    ∀ A B : List (Node T), outputsFrom sn cid (A ++ nd :: B) = outputsFrom sn cid (A ++ B)
  | [], B => by simp [outputsFrom, hs]
  | a :: A, B => by
    simp only [List.cons_append, outputsFrom, List.append_eq,
      outputsFrom_middle_skipped sn cid nd hs A B]

theorem outputsFrom_eq_consumeList (sn : String) (cid : Nat) :
    ∀ L : List (Node T),
      outputsFrom sn cid L = consumeList (L.filter (fun n => !(skipped sn cid n)))
  | [] => rfl
  | n :: L => by
    by_cases h : skipped sn cid n = true
    · simp [outputsFrom, List.filter_cons, h, outputsFrom_eq_consumeList sn cid L]
    · simp [outputsFrom, List.filter_cons, Bool.not_eq_true _ ▸ h, h, consumeList,
        outputsFrom_eq_consumeList sn cid L]

theorem applyOp_of_opNode (s : DemuxState T) (op : DemuxOp T) (n : Node T)
    (h : opNode op = some n) : applyOp s op = appendNode s n := by
  cases op <;> simp only [opNode, Option.some.injEq, reduceCtorEq] at h <;>
    simp [applyOp, writeOp, closeOp, writeToConsumerOp, closeAllOp, ← h]

theorem runOps_log :
    ∀ (ops : List (DemuxOp T)) (s : DemuxState T),
      (∀ op ∈ ops, (opNode op).isSome = true) →
      (runOps s ops).log = s.log ++ ops.filterMap opNode
  | [], s, _ => by simp [runOps]
  | op :: rest, s, h => by
    obtain ⟨n, hn⟩ := Option.isSome_iff_exists.mp (h op (List.mem_cons_self op rest))
    rw [runOps, applyOp_of_opNode s op n hn,
      runOps_log rest (appendNode s n) (fun o ho => h o (List.mem_cons_of_mem op ho)),
      List.filterMap_cons_some hn]
    simp [appendNode]

theorem clearBp_notifyWrite (n : Node T) (c : Consumer T) :
    clearBp (notifyWrite n c) = clearBp c := by
  unfold notifyWrite clearBp
  split <;> rfl

theorem runOps_consumers_clearBp :
    ∀ (ops : List (DemuxOp T)) (s : DemuxState T),
      (∀ op ∈ ops, (opNode op).isSome = true) →
      (runOps s ops).consumers.map clearBp = s.consumers.map clearBp
  | [], _, _ => by simp [runOps]
  | op :: rest, s, h => by
    obtain ⟨n, hn⟩ := Option.isSome_iff_exists.mp (h op (List.mem_cons_self op rest))
    rw [runOps, applyOp_of_opNode s op n hn,
      runOps_consumers_clearBp rest (appendNode s n)
        (fun o ho => h o (List.mem_cons_of_mem op ho))]
    show (s.consumers.map (notifyWrite n)).map clearBp = s.consumers.map clearBp
    rw [List.map_map]
    exact map_congr_mem _ _ s.consumers (fun c _ => clearBp_notifyWrite n c)

theorem skipped_opNode (sn : String) (cid : Nat) (op : DemuxOp T) (n : Node T)
    (h : opNode op = some n) : skipped sn cid n = !(relevantOp sn cid op) := by
  cases op <;> simp only [opNode, Option.some.injEq, reduceCtorEq] at h <;>
    subst h <;> simp [skipped, relevantOp, nodeAddressedTo, bne]

theorem filterMap_filter_skip (sn : String) (cid : Nat) :
    ∀ ops : List (DemuxOp T),
      (∀ op ∈ ops, (opNode op).isSome = true) →
      (ops.filterMap opNode).filter (fun n => !(skipped sn cid n))
        = (ops.filter (relevantOp sn cid)).filterMap opNode
  | [], _ => rfl
  | op :: rest, h => by
    obtain ⟨n, hn⟩ := Option.isSome_iff_exists.mp (h op (List.mem_cons_self op rest))
    have ih := filterMap_filter_skip sn cid rest (fun o ho => h o (List.mem_cons_of_mem op ho))
    rw [List.filterMap_cons_some hn, List.filter_cons, List.filter_cons]
    rw [skipped_opNode sn cid op n hn, Bool.not_not]
    by_cases hrel : relevantOp sn cid op = true
    · simp only [hrel, if_true, List.filterMap_cons_some hn, ih]
    · simp only [Bool.not_eq_true] at hrel
      simp only [hrel, Bool.false_eq_true, if_false, ih]

theorem filterMap_opNode_expected (sn : String) (vc : Option T) :
    ∀ vs : List T,
      ((vs.map (DemuxOp.write sn) ++ [DemuxOp.closeStream sn vc]).filterMap opNode)
        = vs.map (streamNode sn) ++ [closeNode sn vc]
  | [] => by simp [opNode, closeNode]
  | v :: vs => by
    simp only [List.map_cons, List.cons_append, List.filterMap_cons]
    rw [filterMap_opNode_expected sn vc vs]
    rfl

theorem consumeList_expected (sn : String) (vc : Option T) :
    ∀ vs : List T,
      consumeList (vs.map (streamNode sn) ++ [closeNode sn vc])
        = vs.map (fun v => (⟨some v, false⟩ : IterResult T)) ++ [⟨vc, true⟩]
  | [] => by simp [consumeList, consumeNode, closeNode]
  | v :: vs => by
    simp [List.map_cons, List.cons_append, consumeList, consumeNode, streamNode,
      List.append_eq, consumeList_expected sn vc vs]

theorem outputs_run_core (sn : String) (cid : Nat) (s : DemuxState T)
    (ops : List (DemuxOp T)) (vs : List T) (vc : Option T)
    (hA : ∀ op ∈ ops, (opNode op).isSome = true)
    (hRel : ops.filter (relevantOp sn cid)
      = vs.map (DemuxOp.write sn) ++ [DemuxOp.closeStream sn vc]) :
    outputsFrom sn cid ((runOps s ops).log.drop s.log.length)
      = vs.map (fun v => (⟨some v, false⟩ : IterResult T)) ++ [⟨vc, true⟩] := by
  rw [runOps_log ops s hA, List.drop_left, outputsFrom_eq_consumeList,
    filterMap_filter_skip sn cid ops hA, hRel, filterMap_opNode_expected sn vc vs,
    consumeList_expected sn vc vs]

/-! ## Claim theorems -/

/-- Claim C1: for every sequence of values written to a stream name S via
write(S, v1), ..., write(S, vn) followed by close(S) — possibly
interleaved with writes, closes and consumer-addressed writes for other
streams and other consumer ids — a consumer created on S before the first
write observes, through successive next() calls, exactly v1..vn in write
order followed by exactly one terminal result (done = true); no foreign
packet is ever returned to it.  The hypotheses say that every interleaved
operation is an append operation and that the subsequence of operations
relevant to the new consumer is exactly the n writes to S followed by the
close of S.  The second conjunct records that the interleaved operations
change nothing about any registered consumer besides its backpressure
counter (in particular the new consumer keeps its position, stream name
and absent kill packet). -/
theorem C1_write_order_single_terminal (s0 : DemuxState T) (S : String)
    (vs : List T) (vc : Option T) (ops : List (DemuxOp T))
    (hA : ∀ op ∈ ops, (opNode op).isSome = true)
    (hRel : ops.filter (relevantOp S (createConsumerOp s0 S).1.id)
      = vs.map (DemuxOp.write S) ++ [DemuxOp.closeStream S vc]) :
    consumerOutputs (createConsumerOp s0 S).1
        (runOps (createConsumerOp s0 S).2 ops).log
      = vs.map (fun v => (⟨some v, false⟩ : IterResult T)) ++ [⟨vc, true⟩]
    ∧ (runOps (createConsumerOp s0 S).2 ops).consumers.map clearBp
      = (createConsumerOp s0 S).2.consumers.map clearBp := by
  constructor
  · show outputsFrom S (createConsumerOp s0 S).1.id
      ((runOps (createConsumerOp s0 S).2 ops).log.drop
        (createConsumerOp s0 S).2.log.length) = _
    exact outputs_run_core S _ _ ops vs vc hA hRel
  · exact runOps_consumers_clearBp ops _ hA

/-- Witness for C1: three writes to "hello" interleaved with foreign
traffic (writes and a close of stream "abc" and a consumer packet for the
nonexistent consumer id 99), then close("hello"). -/
theorem C1_write_order_single_terminal_witness :
    consumerOutputs (createConsumerOp (initialState Nat) "hello").1
        (runOps (createConsumerOp (initialState Nat) "hello").2 demoOps).log
      = [⟨some 1, false⟩, ⟨some 2, false⟩, ⟨some 3, false⟩, ⟨none, true⟩]
    ∧ (runOps (createConsumerOp (initialState Nat) "hello").2 demoOps).consumers.map clearBp
      = (createConsumerOp (initialState Nat) "hello").2.consumers.map clearBp :=
  C1_write_order_single_terminal (initialState Nat) "hello" [1, 2, 3] none demoOps
    (by decide) (by decide)

theorem nextId_mono (s : DemuxState T) (op : DemuxOp T) :
    s.nextConsumerId ≤ (applyOp s op).nextConsumerId := by
  cases op <;> first | exact Nat.le_refl _ | exact Nat.le_succ _

theorem opAssigned_cases (s : DemuxState T) (op : DemuxOp T) :
    opAssigned s op = []
    ∨ (opAssigned s op = [s.nextConsumerId]
        ∧ (applyOp s op).nextConsumerId = s.nextConsumerId + 1) := by
  cases op
  case create name => exact Or.inr ⟨rfl, rfl⟩
  all_goals exact Or.inl rfl

theorem assignedIds_lb :
    ∀ (ops : List (DemuxOp T)) (s : DemuxState T) (x : Nat),
      x ∈ assignedIds s ops → s.nextConsumerId ≤ x
  | [], _, _, h => absurd h (List.not_mem_nil _)
  | op :: rest, s, x, h => by
    rw [assignedIds] at h
    rcases List.mem_append.mp h with h1 | h2
    · rcases opAssigned_cases s op with he | ⟨he, _⟩
      · rw [he] at h1
        exact absurd h1 (List.not_mem_nil _)
      · rw [he, List.mem_singleton] at h1
        omega
    · exact le_trans (nextId_mono s op) (assignedIds_lb rest (applyOp s op) x h2)

/-- Claim C10: over any sequence of operations on a single StreamDemux
instance — consumer creations on any stream names interleaved with any
other operations — the consumer ids assigned are strictly increasing in
creation order; in particular no id is ever assigned twice over the
lifetime of the instance. -/
theorem C10_ids_strictly_increasing :
    ∀ (ops : List (DemuxOp T)) (s0 : DemuxState T),
      (assignedIds s0 ops).Pairwise (· < ·)
  | [], _ => List.Pairwise.nil
  | op :: rest, s0 => by
    rw [assignedIds]
    rcases opAssigned_cases s0 op with h | ⟨h1, h2⟩
    · rw [h, List.nil_append]
      exact C10_ids_strictly_increasing rest _
    · rw [h1, List.singleton_append]
      refine List.Pairwise.cons ?_ (C10_ids_strictly_increasing rest _)
      intro x hx
      have hlb := assignedIds_lb rest (applyOp s0 op) x hx
      omega

theorem relevantOp_of_streamOp (sn : String) (cid : Nat) (op : DemuxOp T)
    (h : isStreamOp op = true) : relevantOp sn cid op = streamOpFor sn op := by
  cases op <;> first | rfl | simp [isStreamOp] at h

theorem opNode_isSome_of_streamOp (op : DemuxOp T) (h : isStreamOp op = true) :
    (opNode op).isSome = true := by
  cases op <;> first | rfl | simp [isStreamOp] at h

/-- Claim C5: pull-loops created from the same listen(S) handle share no
cursor state.  Three consumers minted on S (as three concurrent iteration
loops over one handle do), all created before the writes, have pairwise
distinct ids, and each one independently observes every packet
subsequently written to S: after writing the values vs to S, interleaved
with traffic on other streams, and closing S, each of the three consumers
pulls all of vs in order followed by one terminal result. -/
theorem C5_independent_fanout (s0 : DemuxState T) (S : String)
    (vs : List T) (vc : Option T) (ops : List (DemuxOp T))
    (hS : ∀ op ∈ ops, isStreamOp op = true)
    (hRel : ops.filter (streamOpFor S)
      = vs.map (DemuxOp.write S) ++ [DemuxOp.closeStream S vc]) :
    ((create3 s0 S).1.1.id ≠ (create3 s0 S).1.2.1.id
      ∧ (create3 s0 S).1.1.id ≠ (create3 s0 S).1.2.2.id
      ∧ (create3 s0 S).1.2.1.id ≠ (create3 s0 S).1.2.2.id)
    ∧ consumerOutputs (create3 s0 S).1.1 (runOps (create3 s0 S).2 ops).log
        = vs.map (fun v => (⟨some v, false⟩ : IterResult T)) ++ [⟨vc, true⟩]
    ∧ consumerOutputs (create3 s0 S).1.2.1 (runOps (create3 s0 S).2 ops).log
        = vs.map (fun v => (⟨some v, false⟩ : IterResult T)) ++ [⟨vc, true⟩]
    ∧ consumerOutputs (create3 s0 S).1.2.2 (runOps (create3 s0 S).2 ops).log
        = vs.map (fun v => (⟨some v, false⟩ : IterResult T)) ++ [⟨vc, true⟩] := by
  have hA : ∀ op ∈ ops, (opNode op).isSome = true :=
    fun op ho => opNode_isSome_of_streamOp op (hS op ho)
  have hfilter : ∀ cid : Nat,
      ops.filter (relevantOp S cid)
        = vs.map (DemuxOp.write S) ++ [DemuxOp.closeStream S vc] := by
    intro cid
    rw [filter_congr_mem (relevantOp S cid) (streamOpFor S) ops
      (fun op ho => relevantOp_of_streamOp S cid op (hS op ho))]
    exact hRel
  refine ⟨⟨?_, ?_, ?_⟩, ?_, ?_, ?_⟩
  · show s0.nextConsumerId ≠ s0.nextConsumerId + 1
    omega
  · show s0.nextConsumerId ≠ s0.nextConsumerId + 1 + 1
    omega
  · show s0.nextConsumerId + 1 ≠ s0.nextConsumerId + 1 + 1
    omega
  · show outputsFrom S (create3 s0 S).1.1.id
      ((runOps (create3 s0 S).2 ops).log.drop (create3 s0 S).2.log.length) = _
    exact outputs_run_core S _ _ ops vs vc hA (hfilter _)
  · show outputsFrom S (create3 s0 S).1.2.1.id
      ((runOps (create3 s0 S).2 ops).log.drop (create3 s0 S).2.log.length) = _
    exact outputs_run_core S _ _ ops vs vc hA (hfilter _)
  · show outputsFrom S (create3 s0 S).1.2.2.id
      ((runOps (create3 s0 S).2 ops).log.drop (create3 s0 S).2.log.length) = _
    exact outputs_run_core S _ _ ops vs vc hA (hfilter _)

/-- Witness for C5: three consumers on "hello" created before the writes,
writes of 1, 2, 3 to "hello" interleaved with traffic on "foo", close of
"hello" with value 5; every one of the three consumers observes all three
values and then the terminal result. -/
theorem C5_independent_fanout_witness :
    ((create3 (initialState Nat) "hello").1.1.id
        ≠ (create3 (initialState Nat) "hello").1.2.1.id
      ∧ (create3 (initialState Nat) "hello").1.1.id
        ≠ (create3 (initialState Nat) "hello").1.2.2.id
      ∧ (create3 (initialState Nat) "hello").1.2.1.id
        ≠ (create3 (initialState Nat) "hello").1.2.2.id)
    ∧ consumerOutputs (create3 (initialState Nat) "hello").1.1
        (runOps (create3 (initialState Nat) "hello").2 demoStreamOps).log
      = [⟨some 1, false⟩, ⟨some 2, false⟩, ⟨some 3, false⟩, ⟨some 5, true⟩]
    ∧ consumerOutputs (create3 (initialState Nat) "hello").1.2.1
        (runOps (create3 (initialState Nat) "hello").2 demoStreamOps).log
      = [⟨some 1, false⟩, ⟨some 2, false⟩, ⟨some 3, false⟩, ⟨some 5, true⟩]
    ∧ consumerOutputs (create3 (initialState Nat) "hello").1.2.2
        (runOps (create3 (initialState Nat) "hello").2 demoStreamOps).log
      = [⟨some 1, false⟩, ⟨some 2, false⟩, ⟨some 3, false⟩, ⟨some 5, true⟩] :=
  C5_independent_fanout (initialState Nat) "hello" [1, 2, 3] (some 5) demoStreamOps
    (by decide) (by decide)

theorem notifyWrite_consumer_packet (cid : Nat) (v : T) (c : Consumer T) :
    notifyWrite ⟨some cid, .packet (.consumer cid ⟨some v, false⟩)⟩ c = c := by
  simp [notifyWrite, bpRelevant]

/-- Claim C8: writeToConsumer(n, v) for an id n held by no live consumer
raises no error (the operation is total) and has no observable effect on
any existing consumer: the consumer records are unchanged (hence the stats
snapshots and every getBackpressure result are unchanged), and for every
live consumer the sequence of results pulled from the log — extended by
any future nodes — is the same as if the call had not happened. -/
theorem C8_writeToConsumer_nonexistent_harmless (s : DemuxState T) (n : Nat) (v : T)
    (hNo : ∀ c ∈ s.consumers, c.live = true → c.id ≠ n)
    (hWf : ∀ c ∈ s.consumers, c.pos ≤ s.log.length) :
    (writeToConsumerOp s n v).consumers = s.consumers
    ∧ allConsumerStats (writeToConsumerOp s n v) = allConsumerStats s
    ∧ (∀ cid : Nat, getBackpressureOfConsumer (writeToConsumerOp s n v) cid
        = getBackpressureOfConsumer s cid)
    ∧ ∀ c ∈ s.consumers, c.live = true → ∀ future : List (Node T),
        consumerOutputs c ((writeToConsumerOp s n v).log ++ future)
          = consumerOutputs c (s.log ++ future) := by
  have hcons : (writeToConsumerOp s n v).consumers = s.consumers := by
    show s.consumers.map (notifyWrite ⟨some n, .packet (.consumer n ⟨some v, false⟩)⟩)
      = s.consumers
    rw [map_congr_mem _ id s.consumers (fun c _ => notifyWrite_consumer_packet n v c),
      List.map_id]
  refine ⟨hcons, ?_, ?_, ?_⟩
  · unfold allConsumerStats
    rw [hcons]
  · intro cid
    unfold getBackpressureOfConsumer
    rw [hcons]
  · intro c hc hlive future
    have hskip : skipped c.streamName c.id
        (⟨some n, .packet (.consumer n ⟨some v, false⟩)⟩ : Node T) = true := by
      simp only [skipped, nodeAddressedTo, Bool.not_eq_true']
      exact beq_eq_false_iff_ne.mpr (fun he => hNo c hc hlive (he ▸ rfl))
    rcases hk : c.killPacket with _ | k
    · have hlog : (writeToConsumerOp s n v).log
          = s.log ++ [⟨some n, .packet (.consumer n ⟨some v, false⟩)⟩] := rfl
      simp only [consumerOutputs, hk, hlog, List.append_assoc, List.singleton_append]
      rw [drop_append_of_le s.log c.pos (hWf c hc)
          ((⟨some n, .packet (.consumer n ⟨some v, false⟩)⟩ : Node T) :: future),
        drop_append_of_le s.log c.pos (hWf c hc) future]
      exact outputsFrom_middle_skipped c.streamName c.id _ hskip (s.log.drop c.pos) future
    · simp only [consumerOutputs, hk]

/-- Witness for C8: a demux with one live consumer on "hello" (id 1) and
writeToConsumer addressed to the nonexistent id 7. -/
theorem C8_writeToConsumer_nonexistent_harmless_witness :
    (writeToConsumerOp demoOneConsumerState 7 42).consumers = demoOneConsumerState.consumers
    ∧ allConsumerStats (writeToConsumerOp demoOneConsumerState 7 42)
        = allConsumerStats demoOneConsumerState
    ∧ (∀ cid : Nat, getBackpressureOfConsumer (writeToConsumerOp demoOneConsumerState 7 42) cid
        = getBackpressureOfConsumer demoOneConsumerState cid)
    ∧ ∀ c ∈ demoOneConsumerState.consumers, c.live = true → ∀ future : List (Node Nat),
        consumerOutputs c ((writeToConsumerOp demoOneConsumerState 7 42).log ++ future)
          = consumerOutputs c (demoOneConsumerState.log ++ future) :=
  C8_writeToConsumer_nonexistent_harmless demoOneConsumerState 7 42
    (by decide) (by decide)

/-- Counterexample for claim C3 as stated: the claim quantifies over every
stream name S, but for S = "" the dispatch of kill through
getConsumerStats uses the JavaScript falsy test, selects the unfiltered
stats list and therefore kills every live consumer.  Concretely, in a
demux holding one live consumer on "hello", kill("", 7) injects the kill
packet into that consumer even though its stream name "hello" differs
from "", so a consumer on a different stream name does observe a change. -/
theorem C3_kill_stream_counterexample :
    demoOneConsumerState.consumers.map (fun c => c.streamName) = ["hello"]
    ∧ ("hello" : String) ≠ ""
    ∧ (killStreamOp demoOneConsumerState "" (some 7)).consumers.map (fun c => c.killPacket)
        = [some ⟨some 7, true⟩]
    ∧ (killStreamOp demoOneConsumerState "" (some 7)).consumers
        ≠ demoOneConsumerState.consumers := by decide

/-- Claim C3 (amended: restricted to nonempty stream names S): kill(S, v)
appends nothing to the log; every live consumer whose stream name is S is
replaced by its killed version, whose backpressure is reset to 0 and whose
next completed pull returns the terminal value v regardless of how many
unread packets precede it in the log; and every consumer whose stream name
differs from S is left exactly unchanged. -/
theorem C3_kill_stream_amended (s : DemuxState T) (S : String) (v : T) (hS : S ≠ "") :
    (killStreamOp s S (some v)).log = s.log
    ∧ (killStreamOp s S (some v)).consumers = s.consumers.map (killStreamUpd S (some v))
    ∧ (∀ c : Consumer T, c.live = true → c.streamName = S →
        killStreamUpd S (some v) c = killedConsumer (some v) c
        ∧ (killedConsumer (some v) c).backpressure = 0
        ∧ ∀ log : List (Node T), log.drop c.pos ≠ [] →
            pullOne (killedConsumer (some v) c) log = some (⟨some v, true⟩, none))
    ∧ (∀ c : Consumer T, c.streamName ≠ S → killStreamUpd S (some v) c = c) := by
  refine ⟨rfl, rfl, ?_, ?_⟩
  · intro c hlive hname
    refine ⟨by simp [killStreamUpd, hlive, hname], rfl, ?_⟩
    intro log hne
    rcases hL : log.drop c.pos with _ | ⟨a, rest⟩
    · exact absurd hL hne
    · simp [pullOne, killedConsumer, hL]
  · intro c hname
    have h1 : (c.streamName == S) = false := beq_eq_false_iff_ne.mpr hname
    have h2 : (S == "") = false := beq_eq_false_iff_ne.mpr hS
    simp [killStreamUpd, h1, h2]

/-- Witness for the amended C3: a demux with one consumer on "hello" and
one on "other", killing stream "hello" with value 7. -/
theorem C3_kill_stream_amended_witness :
    (killStreamOp demoTwoStreamState "hello" (some 7)).log = demoTwoStreamState.log
    ∧ (killStreamOp demoTwoStreamState "hello" (some 7)).consumers
        = demoTwoStreamState.consumers.map (killStreamUpd "hello" (some 7))
    ∧ (∀ c : Consumer Nat, c.live = true → c.streamName = "hello" →
        killStreamUpd "hello" (some 7) c = killedConsumer (some 7) c
        ∧ (killedConsumer (some 7) c).backpressure = 0
        ∧ ∀ log : List (Node Nat), log.drop c.pos ≠ [] →
            pullOne (killedConsumer (some 7) c) log = some (⟨some 7, true⟩, none))
    ∧ (∀ c : Consumer Nat, c.streamName ≠ "hello" → killStreamUpd "hello" (some 7) c = c) :=
  C3_kill_stream_amended demoTwoStreamState "hello" 7 (by decide)

/-- Claim C6: once a kill has been issued for a live consumer — directly
by its id, via its stream name, or via killAll — its record becomes the
killed record (all three kill paths agree on it), which carries the
injected terminal kill packet and is detached from the registry; and every
completed pull of the killed record returns exactly the injected terminal
result (done = true) and destroys the consumer, so no ordinary packet is
ever returned after the kill. -/
theorem C6_no_ordinary_packet_after_kill (c : Consumer T) (v : T) (hLive : c.live = true) :
    killConsumerUpd c.id (some v) c = killedConsumer (some v) c
    ∧ killStreamUpd c.streamName (some v) c = killedConsumer (some v) c
    ∧ killAllUpd (some v) c = killedConsumer (some v) c
    ∧ (killedConsumer (some v) c).killPacket = some ⟨some v, true⟩
    ∧ (killedConsumer (some v) c).live = false
    ∧ ∀ (log : List (Node T)) (r : IterResult T) (k : Option (Consumer T)),
        pullOne (killedConsumer (some v) c) log = some (r, k) →
          r = ⟨some v, true⟩ ∧ r.done = true ∧ k = none := by
  refine ⟨by simp [killConsumerUpd, hLive], by simp [killStreamUpd, hLive],
    by simp [killAllUpd, hLive], rfl, rfl, ?_⟩
  intro log r k h
  by_cases he : (log.drop c.pos).isEmpty = true
  · have : pullOne (killedConsumer (some v) c) log = none := by
      simp [pullOne, killedConsumer, he]
    rw [this] at h
    exact absurd h (by simp)
  · have : pullOne (killedConsumer (some v) c) log
        = some ((⟨some v, true⟩ : IterResult T), (none : Option (Consumer T))) := by
      simp only [Bool.not_eq_true] at he
      simp [pullOne, killedConsumer, he]
    rw [this] at h
    simp only [Option.some.injEq, Prod.mk.injEq] at h
    exact ⟨h.1.symm, by rw [← h.1], h.2.symm⟩

/-- Witness for C6: a concrete live consumer on "hello" with three unread
relevant packets worth of backpressure, killed with value 9. -/
theorem C6_no_ordinary_packet_after_kill_witness :
    killConsumerUpd demoKillConsumer.id (some 9) demoKillConsumer
      = killedConsumer (some 9) demoKillConsumer
    ∧ killStreamUpd demoKillConsumer.streamName (some 9) demoKillConsumer
      = killedConsumer (some 9) demoKillConsumer
    ∧ killAllUpd (some 9) demoKillConsumer = killedConsumer (some 9) demoKillConsumer
    ∧ (killedConsumer (some 9) demoKillConsumer).killPacket = some ⟨some 9, true⟩
    ∧ (killedConsumer (some 9) demoKillConsumer).live = false
    ∧ ∀ (log : List (Node Nat)) (r : IterResult Nat) (k : Option (Consumer Nat)),
        pullOne (killedConsumer (some 9) demoKillConsumer) log = some (r, k) →
          r = ⟨some 9, true⟩ ∧ r.done = true ∧ k = none :=
  C6_no_ordinary_packet_after_kill demoKillConsumer 9 (by decide)

/-- Claim C2, evaluated at the failing input (code bug): in a fresh demux
with one consumer on "hello" (id 1), after writeToConsumer(1, 42) there is
exactly one pending packet relevant to the consumer in the sense of the
claim (specPendingCount = 1), yet getBackpressure(1) returns 0, because
StreamConsumer.write increments backpressure only for top-level terminal
packets and stream packets with a matching name, never for consumer
packets.  The next() call that consumes the packet still decrements the
counter by exactly one, leaving it at -1. -/
theorem C2_backpressure_omits_consumer_packets :
    specPendingCount demoConsumer demoWrittenState.log = 1
    ∧ demoWrittenState.consumers = [demoConsumer]
    ∧ getBackpressureOfConsumer demoWrittenState 1 = 0
    ∧ pullOne demoConsumer demoWrittenState.log
        = some (⟨some 42, false⟩, some ⟨1, "hello", 1, -1, none, true⟩) := by decide

/-- Claim C7, evaluated at the failing input (code bug): pulling the
consumer packet written by writeToConsumer leaves the backpressure counter
of the consumer at -1, which is negative — the counter is not an integer
greater than or equal to 0 at every point of every operation sequence. -/
theorem C7_backpressure_negative_after_pull :
    ((pullOne demoConsumer demoWrittenState.log).bind (fun r => r.2)).map
        (fun c => c.backpressure) = some (-1)
    ∧ ((-1 : Int) < 0) := by decide

theorem filter_nil_of_false {α : Type} (p : α → Bool) :
    ∀ l : List α, (∀ a ∈ l, p a = false) → l.filter p = []
  | [], _ => rfl
  | a :: l, h => by
    simp only [List.filter_cons, h a (List.mem_cons_self a l), Bool.false_eq_true, if_false]
    exact filter_nil_of_false p l (fun b hb => h b (List.mem_cons_of_mem a hb))

theorem stats_filter_comm (S : String) :
    ∀ l : List (Consumer T),
      (l.map consumerStats).filter (fun st => st.stream == S)
        = (l.filter (fun c => c.streamName == S)).map consumerStats
  | [] => rfl
  | c :: l => by
    by_cases h : (c.streamName == S) = true <;>
      simp [List.filter_cons, consumerStats, h, stats_filter_comm S l]

/-- Counterexample for claim C9 as stated: the claim includes the empty
string among the stream names for which getConsumerStats returns the
(empty) list of matching consumers.  In a demux with one live consumer on
"hello", no consumer has stream name "", yet getConsumerStats("") returns
that consumer snapshot, because the dispatch uses the JavaScript falsy
test (!consumerId) and treats "" as the unfiltered overload. -/
theorem C9_stats_empty_name_counterexample :
    getConsumerStatsByName demoOneConsumerState "" = [⟨1, "hello", 0⟩]
    ∧ (∀ c ∈ demoOneConsumerState.consumers, c.streamName ≠ "")
    ∧ getConsumerStatsByName demoOneConsumerState "" ≠ [] := by decide

/-- Claim C9 (amended: restricted to nonempty stream names S):
getConsumerStats(S) returns exactly the {id, streamName, backpressure}
snapshots of the live consumers whose recorded stream name equals S, in
registration order; in particular it returns the empty list — and never
raises an error, being a total function — whenever no live consumer has
stream name S. -/
theorem C9_stats_by_name_amended (s : DemuxState T) (S : String) (hS : S ≠ "") :
    getConsumerStatsByName s S
      = ((s.consumers.filter (fun c => c.live)).filter
          (fun c => c.streamName == S)).map consumerStats
    ∧ ((∀ c ∈ s.consumers, c.live = true → c.streamName ≠ S) →
        getConsumerStatsByName s S = []) := by
  have hS' : (S == "") = false := beq_eq_false_iff_ne.mpr hS
  have h1 : getConsumerStatsByName s S
      = ((s.consumers.filter (fun c => c.live)).filter
          (fun c => c.streamName == S)).map consumerStats := by
    unfold getConsumerStatsByName allConsumerStats
    rw [hS']
    simp only [Bool.false_eq_true, if_false]
    exact stats_filter_comm S (s.consumers.filter (fun c => c.live))
  refine ⟨h1, fun hno => ?_⟩
  rw [h1, filter_nil_of_false _ _ ?_]
  · rfl
  · intro c hc
    have hcl := List.mem_filter.mp hc
    exact beq_eq_false_iff_ne.mpr (hno c hcl.1 hcl.2)

/-- Witness for the amended C9: querying the stats of stream "other" on a
demux whose only live consumer is on "hello" gives the empty list. -/
theorem C9_stats_by_name_amended_witness :
    getConsumerStatsByName demoOneConsumerState "other"
      = ((demoOneConsumerState.consumers.filter (fun c => c.live)).filter
          (fun c => c.streamName == "other")).map consumerStats
    ∧ ((∀ c ∈ demoOneConsumerState.consumers, c.live = true → c.streamName ≠ "other") →
        getConsumerStatsByName demoOneConsumerState "other" = []) :=
  C9_stats_by_name_amended demoOneConsumerState "other" (by decide)
